import Mathlib

/-!
ESP32-Paxcounter: boot sequence, timers, counters and stores.

A shallow embedding of `src/main.cpp` of the ESP32-Paxcounter firmware.

* `setup()` is straight-line code: preprocessor switches and a few run-time
  tests select which statements run, and `exit(0)` ends it early.  It is
  embedded as the list of calls it makes to its collaborators, in program
  order (`setup_body`), cut after the first `exit` (`setup`).
* Every call to a collaborator (`loadConfig`, `start_ota_update`, the timer
  and task functions, ...) is one step of the run and is taken to return.
* The globals declared in `main.cpp` (`channel`, the interrupt flags, `macs`,
  the send queues) are embedded with the widths their declarations give them.
* Operations on those globals that live in other translation units are
  modelled from the specification and are marked as such.
-/

namespace Paxcounter

/-! ## Machine integers -/

/-- Value of an `int` expression after wrap-around to 32 bit two's complement. -/
def wrap_int32 (x : Int) : Int := (x + 2147483648) % 4294967296 - 2147483648

/-- Conversion of an `int` to the `uint64_t` parameter of `timerAlarmWrite`. -/
def to_uint64 (x : Int) : Nat := (x % 18446744073709551616).toNat

/-- Value stored in a `uint8_t` object. -/
def to_uint8 (x : Nat) : Nat := x % 256

/-- Value stored in a `uint16_t` object. -/
def to_uint16 (x : Nat) : Nat := x % 65536

/-! ## Build switches, configuration and environment of `setup()` -/

/-- Preprocessor symbols that `setup()` tests or expands (defined in headers
that are not part of `main.cpp`; every choice of them is a build). -/
structure BuildFlags where
  DISABLE_BROWNOUT : Bool
  VERBOSE : Bool
  /-- Stands for `HAS_LED != NOT_A_PIN`. -/
  HAS_LED : Bool
  HAS_RGB_LED : Bool
  HAS_ANTENNA_SWITCH : Bool
  BLECOUNTER : Bool
  HAS_BATTERY_PROBE : Bool
  USE_OTA : Bool
  HAS_BUTTON : Bool
  BUTTON_PULLUP : Bool
  HAS_GPS : Bool
  HAS_LORA : Bool
  HAS_SPI : Bool
  VENDORFILTER : Bool
  HAS_DISPLAY : Bool
  PAYLOAD_ENCODER : Nat
  SEND_QUEUE_SIZE : Nat
  PAYLOAD_BUFFER_SIZE : Nat
  DISPLAYREFRESH_MS : Nat
  HOMECYCLE : Nat
  deriving DecidableEq, Repr

/-- The fields of `configData_t cfg` that `setup()` reads, as found after
`loadConfig()`.  They are `uint8_t` in the firmware; theorems that depend on
the width say so by a bound below 256. -/
structure configData_t where
  wifiant : Nat
  runmode : Nat
  screenon : Nat
  sendcycle : Nat
  wifichancycle : Nat
  blescan : Nat
  deriving DecidableEq, Repr

/-- What the run-time system answers to `setup()`: the handles returned by the
two `xQueueCreate` calls (0 is the null handle). -/
structure Env where
  LoraSendQueue : Nat
  SPISendQueue : Nat
  deriving DecidableEq, Repr

/-- The four hardware timer handles declared in `main.cpp`. -/
inductive hw_timer where
  | channelSwitch
  | displaytimer
  | sendCycle
  | homeCycle
  deriving DecidableEq, Repr

/-- Interrupt service routines attached by `setup()`. -/
inductive Isr where
  | ButtonIRQ
  | DisplayIRQ
  | SendCycleIRQ
  | homeCycleIRQ
  | ChannelSwitchIRQ
  deriving DecidableEq, Repr

/-- Task functions started by `setup()`. -/
inductive TaskFn where
  | lorawan_loop
  | gps_loop
  | switchWifiChannel
  | stateMachine
  deriving DecidableEq, Repr

/-- One statement of `setup()` with an effect outside the function: a call to
a collaborator or a store to a global. -/
inductive Call where
  | esp_log_level_set (tag : String) (verbose : Bool)
  | clear_brownout_reg
  | Serial_begin (baud : Nat)
  | esp_log_set_vprintf
  | loadConfig
  | strcat_P (feature : String)
  | pinMode (pin : String) (mode : String)
  | rgb_set_color
  | antenna_init
  | antenna_select (wifiant : Nat)
  | btStop
  | calibrate_voltage
  | read_voltage
  | store_runmode (v : Nat)
  | saveConfig
  | start_ota_update
  | attachInterrupt (isr : Isr) (edge : String)
  | xQueueCreate (queue : String) (length : Nat)
  | ESP_LOGE (msg : String)
  | ESP_LOGI (msg : String)
  | exit (status : Nat)
  | esp_chip_info
  | store_DisplayState (v : Nat)
  | init_display
  | timerBegin (t : hw_timer) (num : Nat) (divider : Nat) (countUp : Bool)
  | timerAttachInterrupt (t : hw_timer) (isr : Isr) (edge : Bool)
  | timerAlarmWrite (t : hw_timer) (alarm_value : Nat) (autoreload : Bool)
  | timerAlarmEnable (t : hw_timer)
  | yield
  | xSemaphoreCreateBinary
  | showLoraKeys
  | os_init
  | LMIC_reset
  | LMIC_setClockError
  | LMIC_startJoining
  | xTaskCreatePinnedToCore (fn : TaskFn) (name : String) (stack : Nat)
      (priority : Nat) (core : Nat)
  | start_BLEscan
  | wifi_sniffer_init
  | get_salt
  deriving DecidableEq, Repr

/-- Calls that set up or arm a hardware timer. -/
def Call.isTimerCall : Call → Bool
  | .timerBegin _ _ _ _ => true
  | .timerAttachInterrupt _ _ _ => true
  | .timerAlarmWrite _ _ _ => true
  | .timerAlarmEnable _ => true
  | _ => false

/-- Calls that create a task. -/
def Call.isTaskCreate : Call → Bool
  | .xTaskCreatePinnedToCore _ _ _ _ _ => true
  | _ => false

/-- The call `exit(..)`. -/
def Call.isExit : Call → Bool
  | .exit _ => true
  | _ => false

/-- Statements guarded by `#ifdef`: present when the symbol is defined. -/
def ifdef (c : Bool) (body : List Call) : List Call := if c then body else []

/-- Statements guarded by `#ifdef ... #else ... #endif`, and run-time
`if ... else`. -/
def ifelse (c : Bool) (thenBody elseBody : List Call) : List Call :=
  if c then thenBody else elseBody

/-! ## Alarm values programmed by `setup()` -/

/-- Alarm of the display timer, `DISPLAYREFRESH_MS * 1000`, line 241. -/
def displaytimer_alarm (b : BuildFlags) : Nat :=
  to_uint64 (wrap_int32 ((b.DISPLAYREFRESH_MS : Int) * 1000))

/-- Alarm of the send cycle timer, `cfg.sendcycle * 2 * 10000`, line 250: the
`uint8_t` is promoted to `int` and the product is evaluated left to right in
`int`. -/
def sendCycle_alarm (cfg : configData_t) : Nat :=
  to_uint64 (wrap_int32 (wrap_int32 ((cfg.sendcycle : Int) * 2) * 10000))

/-- Alarm of the housekeeping timer, `HOMECYCLE * 10000`, line 255. -/
def homeCycle_alarm (b : BuildFlags) : Nat :=
  to_uint64 (wrap_int32 ((b.HOMECYCLE : Int) * 10000))

/-- Alarm of the channel rotation timer, `cfg.wifichancycle * 1000`, line 261. -/
def channelSwitch_alarm (cfg : configData_t) : Nat :=
  to_uint64 (wrap_int32 ((cfg.wifichancycle : Int) * 1000))

/-! ## The statements of `setup()`, in program order -/

/-- Lines 90-109: logging. -/
def setup_logging (b : BuildFlags) : List Call :=
  [.esp_log_level_set "wifi" false] ++
  ifdef b.DISABLE_BROWNOUT [.clear_brownout_reg] ++
  ifelse b.VERBOSE
    [.Serial_begin 115200, .esp_log_level_set "*" true]
    [.esp_log_level_set "*" false, .esp_log_set_vprintf]

/-- Lines 111-174: configuration, leds, antenna, bluetooth, battery, OTA,
button and GPS feature. -/
def setup_peripherals (b : BuildFlags) (cfg : configData_t) : List Call :=
  [.loadConfig] ++
  ifdef b.HAS_LED [.pinMode "HAS_LED" "OUTPUT", .strcat_P " LED"] ++
  ifdef b.HAS_RGB_LED [.rgb_set_color, .strcat_P " RGB"] ++
  ifdef b.HAS_ANTENNA_SWITCH
    [.strcat_P " ANT", .antenna_init, .antenna_select cfg.wifiant] ++
  ifelse b.BLECOUNTER [.strcat_P " BLE"] [.btStop] ++
  ifdef b.HAS_BATTERY_PROBE
    [.strcat_P " BATT", .calibrate_voltage, .read_voltage] ++
  ifdef b.USE_OTA
    ([.strcat_P " OTA"] ++
     ifdef (cfg.runmode == 1) [.store_runmode 0, .saveConfig, .start_ota_update]) ++
  ifdef b.HAS_BUTTON
    ([.strcat_P " BTN_"] ++
     ifelse b.BUTTON_PULLUP
       [.strcat_P "PU", .pinMode "HAS_BUTTON" "INPUT_PULLUP",
        .attachInterrupt .ButtonIRQ "RISING"]
       [.strcat_P "PD", .pinMode "HAS_BUTTON" "INPUT_PULLDOWN",
        .attachInterrupt .ButtonIRQ "FALLING"]) ++
  ifdef b.HAS_GPS [.strcat_P " GPS"]

/-- Lines 176-186: creation of the LoRa send queue. -/
def setup_LoraSendQueue (b : BuildFlags) (env : Env) : List Call :=
  ifdef b.HAS_LORA
    ([.strcat_P " LORA", .xQueueCreate "LoraSendQueue" b.SEND_QUEUE_SIZE] ++
     ifelse (env.LoraSendQueue == 0)
       [.ESP_LOGE "Could not create LORA send queue. Aborting.", .exit 0]
       [.ESP_LOGI "LORA send queue created, size %d Bytes"])

/-- Lines 188-198: creation of the SPI send queue. -/
def setup_SPISendQueue (b : BuildFlags) (env : Env) : List Call :=
  ifdef b.HAS_SPI
    ([.strcat_P " SPI", .xQueueCreate "SPISendQueue" b.SEND_QUEUE_SIZE] ++
     ifelse (env.SPISendQueue == 0)
       [.ESP_LOGE "Could not create SPI send queue. Aborting.", .exit 0]
       [.ESP_LOGI "SPI send queue created, size %d Bytes"])

/-- Lines 200-225: vendor filter feature, start message, chip information. -/
def setup_banner (b : BuildFlags) : List Call :=
  ifdef b.VENDORFILTER [.strcat_P " OUIFLT"] ++
  [.ESP_LOGI "Starting %s v%s"] ++
  ifdef b.VERBOSE
    ([.esp_chip_info, .ESP_LOGI "This is ESP32 chip with %d CPU cores",
      .ESP_LOGI "ESP32 SDK: %s", .ESP_LOGI "Free RAM: %d bytes"] ++
     ifdef b.HAS_GPS [.ESP_LOGI "TinyGPS+ v%s"])

/-- Lines 227-245: display and display refresh timer (hardware timer 0). -/
def setup_display (b : BuildFlags) (cfg : configData_t) : List Call :=
  ifdef b.HAS_DISPLAY
    [.strcat_P " OLED", .store_DisplayState cfg.screenon, .init_display,
     .timerBegin .displaytimer 0 80 true,
     .timerAttachInterrupt .displaytimer .DisplayIRQ true,
     .timerAlarmWrite .displaytimer (displaytimer_alarm b) true,
     .yield,
     .timerAlarmEnable .displaytimer]

/-- Lines 247-270: send cycle, housekeeping and channel rotation timers. -/
def setup_timers (b : BuildFlags) (cfg : configData_t) : List Call :=
  [.timerBegin .sendCycle 2 8000 true,
   .timerAttachInterrupt .sendCycle .SendCycleIRQ true,
   .timerAlarmWrite .sendCycle (sendCycle_alarm cfg) true,
   .timerBegin .homeCycle 3 8000 true,
   .timerAttachInterrupt .homeCycle .homeCycleIRQ true,
   .timerAlarmWrite .homeCycle (homeCycle_alarm b) true,
   .xSemaphoreCreateBinary,
   .timerBegin .channelSwitch 1 800 true,
   .timerAttachInterrupt .channelSwitch .ChannelSwitchIRQ true,
   .timerAlarmWrite .channelSwitch (channelSwitch_alarm cfg) true,
   .yield, .timerAlarmEnable .homeCycle,
   .yield, .timerAlarmEnable .sendCycle,
   .yield, .timerAlarmEnable .channelSwitch]

/-- Lines 272-284: payload encoder feature and the feature list. -/
def setup_features (b : BuildFlags) : List Call :=
  ifelse (b.PAYLOAD_ENCODER == 1) [.strcat_P " PLAIN"]
    (ifelse (b.PAYLOAD_ENCODER == 2) [.strcat_P " PACKED"]
      (ifelse (b.PAYLOAD_ENCODER == 3) [.strcat_P " LPPDYN"]
        (ifdef (b.PAYLOAD_ENCODER == 4) [.strcat_P " LPPPKD"]))) ++
  [.ESP_LOGI "Features:%s"]

/-- Lines 286-314: LMIC start and the task `loraloop`. -/
def setup_lora (b : BuildFlags) : List Call :=
  ifdef b.HAS_LORA
    (ifdef b.VERBOSE [.showLoraKeys] ++
     [.os_init, .LMIC_reset, .LMIC_setClockError, .LMIC_startJoining,
      .ESP_LOGI "Starting Lora...",
      .xTaskCreatePinnedToCore .lorawan_loop "loraloop" 3048 2 1])

/-- Lines 316-328: the task `gpsloop`. -/
def setup_gps (b : BuildFlags) : List Call :=
  ifdef b.HAS_GPS
    [.ESP_LOGI "Starting GPS...",
     .xTaskCreatePinnedToCore .gps_loop "gpsloop" 1024 2 0]

/-- Lines 330-336: bluetooth scan. -/
def setup_ble (b : BuildFlags) (cfg : configData_t) : List Call :=
  ifdef b.BLECOUNTER
    (ifdef (cfg.blescan != 0) [.ESP_LOGI "Starting Bluetooth...", .start_BLEscan])

/-- Lines 338-363: wifi sniffer, salt, channel rotation task, state machine. -/
def setup_wifi (_b : BuildFlags) : List Call :=
  [.ESP_LOGI "Starting Wifi...",
   .wifi_sniffer_init,
   .get_salt,
   .xTaskCreatePinnedToCore .switchWifiChannel "wifiloop" 2048 4 0,
   .ESP_LOGI "Starting Statemachine...",
   .xTaskCreatePinnedToCore .stateMachine "stateloop" 2048 1 1]

/-- All statements of `setup()` in program order, as if no `exit` ended it. -/
def setup_body (b : BuildFlags) (cfg : configData_t) (env : Env) : List Call :=
  setup_logging b ++ setup_peripherals b cfg ++
  setup_LoraSendQueue b env ++ setup_SPISendQueue b env ++
  setup_banner b ++ setup_display b cfg ++ setup_timers b cfg ++
  setup_features b ++ setup_lora b ++ setup_gps b ++ setup_ble b cfg ++
  setup_wifi b

/-- The calls made up to and including the first `exit`: nothing after
`exit` runs. -/
def until_exit : List Call → List Call
  | [] => []
  | c :: cs => if c.isExit then [c] else c :: until_exit cs

/-- One run of `void setup()`: the calls it makes, in order. -/
def setup (b : BuildFlags) (cfg : configData_t) (env : Env) : List Call :=
  until_exit (setup_body b cfg env)

/-- A build and environment used to evaluate `setup()`: all features on. -/
def fullBuild : BuildFlags where
  DISABLE_BROWNOUT := true
  VERBOSE := true
  HAS_LED := true
  HAS_RGB_LED := true
  HAS_ANTENNA_SWITCH := true
  BLECOUNTER := true
  HAS_BATTERY_PROBE := true
  USE_OTA := true
  HAS_BUTTON := true
  BUTTON_PULLUP := true
  HAS_GPS := true
  HAS_LORA := true
  HAS_SPI := true
  VENDORFILTER := true
  HAS_DISPLAY := true
  PAYLOAD_ENCODER := 2
  SEND_QUEUE_SIZE := 10
  PAYLOAD_BUFFER_SIZE := 51
  DISPLAYREFRESH_MS := 40
  HOMECYCLE := 30

/-- A configuration used to evaluate `setup()`. -/
def sampleCfg : configData_t where
  wifiant := 0
  runmode := 0
  screenon := 1
  sendcycle := 30
  wifichancycle := 50
  blescan := 1

/-- A configuration with the send cycle set to 0. -/
def zeroCycleCfg : configData_t := { sampleCfg with sendcycle := 0 }

/-- A build whose send queues have capacity 4. -/
def smallQueueBuild : BuildFlags := { fullBuild with SEND_QUEUE_SIZE := 4 }

/-- An environment in which both queues are created. -/
def goodEnv : Env := { LoraSendQueue := 1073421000, SPISendQueue := 1073422000 }

/-- An environment in which the SPI queue cannot be created. -/
def noSpiQueueEnv : Env := { LoraSendQueue := 1073421000, SPISendQueue := 0 }

/-- Both send queues that the build asks for are created. -/
def queues_created (b : BuildFlags) (env : Env) : Bool :=
  !(b.HAS_LORA && env.LoraSendQueue == 0) && !(b.HAS_SPI && env.SPISendQueue == 0)

/-- Calls that neither end `setup()`, nor touch a hardware timer, nor create
a task. -/
def Call.isEarly (c : Call) : Bool := !c.isExit && !c.isTimerCall && !c.isTaskCreate

/-! ## The task table of the header comment (lines 26-35) -/

/-- One row of the table "Task Core Prio Purpose". -/
structure TaskRow where
  task : String
  core : Nat
  prio : Nat
  deriving DecidableEq, Repr

/-- The rows of the header comment, in the order written. -/
def headerTaskTable : List TaskRow :=
  [ { task := "IDLE", core := 0, prio := 0 },
    { task := "gpsloop", core := 0, prio := 2 },
    { task := "IDLE", core := 1, prio := 0 },
    { task := "loraloop", core := 1, prio := 2 },
    { task := "statemachine", core := 1, prio := 1 },
    { task := "wifiloop", core := 0, prio := 4 } ]

/-- The rows the header comment gives for a task name. -/
def headerRows (name : String) : List TaskRow :=
  headerTaskTable.filter (fun r => r.task == name)

/-! ## Timer periods -/

/-- Base clock of the hardware timers, 80 MHz (comment at line 236). -/
def TIMER_BASE_CLK : Nat := 80000000

/-- Base clock cycles between two alarms of an auto-reloading timer that
counts up with the given prescaler. -/
def period_cycles (divider alarm_value : Nat) : Nat := divider * alarm_value

/-! ## Interrupt flags (lines 58-60) -/

/-- The sources of the five flags. -/
inductive IrqSource where
  | Button
  | ChannelTimer
  | SendCycleTimer
  | DisplayTimer
  | HomeCycle
  deriving DecidableEq, Repr

/-- The five `uint8_t volatile` flags. -/
structure IrqFlags where
  ButtonPressedIRQ : Nat
  ChannelTimerIRQ : Nat
  SendCycleTimerIRQ : Nat
  DisplayTimerIRQ : Nat
  HomeCycleIRQ : Nat
  deriving DecidableEq, Repr

/-- Initial values of the flags: all are 0. -/
def IrqFlags.boot : IrqFlags :=
  { ButtonPressedIRQ := 0, ChannelTimerIRQ := 0, SendCycleTimerIRQ := 0,
    DisplayTimerIRQ := 0, HomeCycleIRQ := 0 }

/-- Value the dispatcher reads from a flag. -/
def IrqFlags.read (f : IrqFlags) : IrqSource → Nat
  | .Button => f.ButtonPressedIRQ
  | .ChannelTimer => f.ChannelTimerIRQ
  | .SendCycleTimer => f.SendCycleTimerIRQ
  | .DisplayTimer => f.DisplayTimerIRQ
  | .HomeCycle => f.HomeCycleIRQ

/-- Store to a flag; the object is a `uint8_t`. -/
def IrqFlags.store (f : IrqFlags) (s : IrqSource) (v : Nat) : IrqFlags :=
  match s with
  | .Button => { f with ButtonPressedIRQ := to_uint8 v }
  | .ChannelTimer => { f with ChannelTimerIRQ := to_uint8 v }
  | .SendCycleTimer => { f with SendCycleTimerIRQ := to_uint8 v }
  | .DisplayTimer => { f with DisplayTimerIRQ := to_uint8 v }
  | .HomeCycle => { f with HomeCycleIRQ := to_uint8 v }

/-- One invocation of an interrupt handler.  For a button press the field
`in_refractory` says whether the press falls within the refractory window
after the previous one; the timer handlers do not look at it. -/
structure Firing where
  source : IrqSource
  in_refractory : Bool
  deriving DecidableEq, Repr

/-- The press is one that the debounce of the button handler ignores. -/
def Firing.ignored (e : Firing) : Bool := e.source == .Button && e.in_refractory

/-- Modelled from the spec: the handlers (`ButtonIRQ`, `DisplayIRQ`,
`SendCycleIRQ`, `homeCycleIRQ`, `ChannelSwitchIRQ`, defined outside
`main.cpp`) perform only an increment of their flag; a button press within
the refractory window after the previous one is ignored at the flag level. -/
def irq_fire (f : IrqFlags) (e : Firing) : IrqFlags :=
  if e.ignored then f else f.store e.source (f.read e.source + 1)

/-- Modelled from the spec: the dispatcher clears a flag after reading it. -/
def irq_clear (f : IrqFlags) (s : IrqSource) : IrqFlags := f.store s 0

/-- The flags after the listed handler invocations, in that order. -/
def irq_fire_all (f : IrqFlags) (fired : List Firing) : IrqFlags :=
  fired.foldl irq_fire f

/-- Number of firings of the handler of a source. -/
def firings (s : IrqSource) (fired : List Firing) : Nat :=
  fired.countP (fun e => e.source == s)

/-- Number of firings of the handler of a source that the debounce does not
ignore. -/
def recorded (s : IrqSource) (fired : List Firing) : Nat :=
  fired.countP (fun e => e.source == s && !e.ignored)

/-- Three button presses, the second within the refractory window, mixed with
timer firings. -/
def sampleFirings : List Firing :=
  [ { source := .Button, in_refractory := false },
    { source := .DisplayTimer, in_refractory := false },
    { source := .Button, in_refractory := true },
    { source := .HomeCycle, in_refractory := false },
    { source := .DisplayTimer, in_refractory := false },
    { source := .Button, in_refractory := false } ]

/-! ## Dedup store (line 80) -/

/-- Category of an observed device. -/
inductive Category where
  | wifi
  | ble
  deriving DecidableEq, Repr

/-- The container `std::set<uint16_t> macs` together with the salt that is
mixed into the fingerprints. -/
structure DedupStore where
  macs : Finset Nat
  salt : Nat

/-- Modelled from the spec: the fingerprint is a 16 bit salted hash derived
from the raw identifier and the current salt; the hash function is defined
outside `main.cpp` and is a parameter. -/
def fingerprint (hash : Nat → Nat → Nat) (salt raw : Nat) : Nat :=
  to_uint16 (hash salt raw)

/-- Modelled from the spec: `observe(category, raw_identifier)` derives the
fingerprint from the raw identifier and the current salt and inserts it into
the set (the function is defined outside `main.cpp`; the set is `macs`). -/
def observe (hash : Nat → Nat → Nat) (s : DedupStore) (_category : Category)
    (raw : Nat) : DedupStore :=
  { s with macs := insert (fingerprint hash s.salt raw) s.macs }

/-- Modelled from the spec: `reset_window()` clears the set and takes a new
salt. -/
def reset_window (_s : DedupStore) (newSalt : Nat) : DedupStore :=
  { macs := ∅, salt := to_uint16 newSalt }

/-- Modelled from the spec: the cardinality that `drain` returns. -/
def drain (s : DedupStore) : Nat := s.macs.card

/-- A sequence of `observe` calls. -/
def observe_all (hash : Nat → Nat → Nat) (s : DedupStore)
    (obs : List (Category × Nat)) : DedupStore :=
  obs.foldl (fun st o => observe hash st o.1 o.2) s

/-- The store at boot: `macs` is empty. -/
def DedupStore.boot (salt : Nat) : DedupStore := { macs := ∅, salt := to_uint16 salt }

/-- Number of distinct (category, raw identifier) pairs in a sequence. -/
def distinct_pairs (obs : List (Category × Nat)) : Nat := obs.dedup.length

/-- Number of distinct fingerprints in a sequence under a salt. -/
def distinct_fingerprints (hash : Nat → Nat → Nat) (salt : Nat)
    (obs : List (Category × Nat)) : Nat :=
  (obs.map (fun o => fingerprint hash salt o.2)).dedup.length

/-- A hash used to evaluate the store on concrete inputs: identifier plus
salt. -/
def sampleHash (salt raw : Nat) : Nat := raw + salt

/-! ## Send queues (lines 66-74, 179, 191) -/

/-- Modelled from the spec: a send queue is a bounded FIFO of capacity N; the
oldest element is the head of `items`.  The queue itself is created by
`xQueueCreate(SEND_QUEUE_SIZE, sizeof(MessageBuffer_t))`. -/
structure SendQueue (α : Type) where
  capacity : Nat
  items : List α
  dropped : Nat

/-- Result of `try_enqueue`. -/
inductive EnqueueResult where
  | success
  | full
  deriving DecidableEq, Repr

/-- The empty queue that `xQueueCreate(N, ..)` hands out. -/
def SendQueue.create {α : Type} (N : Nat) : SendQueue α :=
  { capacity := N, items := [], dropped := 0 }

/-- Modelled from the spec: non-blocking `try_enqueue(element)`; on a full
queue the newest payload is dropped and the drop counter is incremented. -/
def try_enqueue {α : Type} (q : SendQueue α) (e : α) : EnqueueResult × SendQueue α :=
  if q.items.length < q.capacity then
    (.success, { q with items := q.items ++ [e] })
  else
    (.full, { q with dropped := q.dropped + 1 })

/-- Modelled from the spec: `dequeue` on a queue that holds an element
returns the oldest one; on an empty queue it times out. -/
def dequeue {α : Type} (q : SendQueue α) : Option α × SendQueue α :=
  match q.items with
  | [] => (none, q)
  | x :: xs => (some x, { q with items := xs })

/-- An operation of a producer or of the consumer on a queue. -/
inductive QueueOp (α : Type) where
  | enq (e : α)
  | deq

/-- The queue after a sequence of operations. -/
def SendQueue.run {α : Type} (q : SendQueue α) : List (QueueOp α) → SendQueue α
  | [] => q
  | .enq e :: ops => SendQueue.run (try_enqueue q e).2 ops
  | .deq :: ops => SendQueue.run (dequeue q).2 ops

/-! ## Channel rotation (line 51) -/

/-- Modelled from the spec: on each rotation signal the task
`switchWifiChannel` (defined outside `main.cpp`) advances the channel index by
one position, wrapping modulo the list length; the index is the global
`uint8_t volatile channel`. -/
def rotate (listLength : Nat) (channel : Nat) : Nat :=
  to_uint8 ((channel + 1) % listLength)

/-- The channel index after a number of rotation signals. -/
def rotate_n (listLength : Nat) : Nat → Nat → Nat
  | 0, channel => channel
  | n + 1, channel => rotate_n listLength n (rotate listLength channel)

/-- The channels visited by consecutive rotation signals: after each signal
the channel at the new index is applied to the radio. -/
def visited (channels : List Nat) : Nat → Nat → List (Option Nat)
  | 0, _ => []
  | n + 1, channel =>
    channels.get? (rotate channels.length channel) ::
      visited channels n (rotate channels.length channel)

/-! ## Lemmas on conditional blocks and on `until_exit` -/

theorem mem_ifdef_iff (c : Bool) (l : List Call) (x : Call) :
    x ∈ ifdef c l ↔ c = true ∧ x ∈ l := by
  cases c <;> simp [ifdef]

theorem mem_ifelse_iff (c : Bool) (l₁ l₂ : List Call) (x : Call) :
    x ∈ ifelse c l₁ l₂ ↔ (c = true ∧ x ∈ l₁) ∨ (c = false ∧ x ∈ l₂) := by
  cases c <;> simp [ifelse]

theorem all_ifdef (c : Bool) (l : List Call) (p : Call → Bool) :
    (ifdef c l).all p = (!c || l.all p) := by
  cases c <;> simp [ifdef]

theorem all_ifelse (c : Bool) (l₁ l₂ : List Call) (p : Call → Bool) :
    (ifelse c l₁ l₂).all p = ((!c || l₁.all p) && (c || l₂.all p)) := by
  cases c <;> simp [ifelse]

theorem until_exit_append_of_all (pre l : List Call)
    (h : pre.all (fun c => !c.isExit) = true) :
    until_exit (pre ++ l) = pre ++ until_exit l := by
  induction pre with
  | nil => rfl
  | cons c cs ih =>
    simp only [List.all_cons, Bool.and_eq_true, Bool.not_eq_true'] at h
    simp [until_exit, h.1, ih h.2]

theorem until_exit_of_all (l : List Call)
    (h : l.all (fun c => !c.isExit) = true) : until_exit l = l := by
  have := until_exit_append_of_all l [] h
  simpa [until_exit] using this

/-- The statements before the queues are created contain no `exit`. -/
theorem early_no_exit (b : BuildFlags) (cfg : configData_t) :
    (setup_logging b ++ setup_peripherals b cfg).all (fun c => !c.isExit) = true := by
  simp [setup_logging, setup_peripherals, all_ifdef, all_ifelse, Call.isExit]

/-- The statements before the queues are created touch no timer and create
no task. -/
theorem early_isEarly (b : BuildFlags) (cfg : configData_t) :
    (setup_logging b ++ setup_peripherals b cfg).all Call.isEarly = true := by
  simp [setup_logging, setup_peripherals, all_ifdef, all_ifelse, Call.isEarly,
    Call.isExit, Call.isTimerCall, Call.isTaskCreate]

/-- When both queues are created no `exit` is executed: the run is the whole
body. -/
theorem setup_of_queues_created (b : BuildFlags) (cfg : configData_t) (env : Env)
    (h : queues_created b env = true) : setup b cfg env = setup_body b cfg env := by
  unfold setup
  apply until_exit_of_all
  simp only [queues_created, Bool.and_eq_true, Bool.not_eq_true', Bool.and_eq_false_imp,
    beq_eq_false_iff_ne, ne_eq] at h
  obtain ⟨h1, h2⟩ := h
  have e1 : b.HAS_LORA = true → (env.LoraSendQueue == 0) = false := by
    intro hb; simpa using h1 hb
  have e2 : b.HAS_SPI = true → (env.SPISendQueue == 0) = false := by
    intro hb; simpa using h2 hb
  cases hL : b.HAS_LORA <;> cases hS : b.HAS_SPI <;>
    simp [setup_body, setup_logging, setup_peripherals, setup_LoraSendQueue,
      setup_SPISendQueue, setup_banner, setup_display, setup_timers, setup_features,
      setup_lora, setup_gps, setup_ble, setup_wifi, all_ifdef, all_ifelse, Call.isExit,
      hL, hS, e1, e2]

/-- When a queue cannot be created the run ends with the failed
`xQueueCreate`, the error message and `exit(0)`, and everything before is a
statement from before the timers. -/
theorem setup_of_queue_failure (b : BuildFlags) (cfg : configData_t) (env : Env)
    (h : queues_created b env = false) :
    ∃ pre q msg, setup b cfg env =
        pre ++ [Call.xQueueCreate q b.SEND_QUEUE_SIZE, Call.ESP_LOGE msg, Call.exit 0] ∧
      pre.all Call.isEarly = true := by
  have hearly := early_isEarly b cfg
  have hne := early_no_exit b cfg
  by_cases hL : b.HAS_LORA = true ∧ (env.LoraSendQueue == 0) = true
  · refine ⟨setup_logging b ++ setup_peripherals b cfg ++ [Call.strcat_P " LORA"],
      "LoraSendQueue", "Could not create LORA send queue. Aborting.", ?_, ?_⟩
    · unfold setup setup_body
      simp only [List.append_assoc]
      rw [← List.append_assoc (setup_logging b), until_exit_append_of_all _ _ hne]
      simp [setup_LoraSendQueue, ifdef, ifelse, hL.1, hL.2, until_exit, Call.isExit]
    · rw [List.all_append, hearly]
      simp [Call.isEarly, Call.isExit, Call.isTimerCall, Call.isTaskCreate]
  · have hS : b.HAS_SPI = true ∧ (env.SPISendQueue == 0) = true := by
      simp only [queues_created] at h
      cases h1 : b.HAS_LORA <;> cases h2 : (env.LoraSendQueue == 0) <;>
        cases h3 : b.HAS_SPI <;> cases h4 : (env.SPISendQueue == 0) <;>
        simp_all
    have hLq : (setup_LoraSendQueue b env).all (fun c => !c.isExit) = true ∧
        (setup_LoraSendQueue b env).all Call.isEarly = true := by
      cases h1 : b.HAS_LORA <;> cases h2 : (env.LoraSendQueue == 0) <;>
        simp_all [setup_LoraSendQueue, ifdef, ifelse, Call.isEarly, Call.isExit,
          Call.isTimerCall, Call.isTaskCreate]
    refine ⟨setup_logging b ++ setup_peripherals b cfg ++ setup_LoraSendQueue b env ++
      [Call.strcat_P " SPI"], "SPISendQueue",
      "Could not create SPI send queue. Aborting.", ?_, ?_⟩
    · unfold setup setup_body
      have hpre : (setup_logging b ++ setup_peripherals b cfg ++
          setup_LoraSendQueue b env).all (fun c => !c.isExit) = true := by
        rw [List.all_append, hne, hLq.1]; rfl
      simp only [List.append_assoc]
      rw [← List.append_assoc (setup_logging b), ← List.append_assoc _ (setup_LoraSendQueue b env),
        until_exit_append_of_all _ _ hpre]
      simp [setup_SPISendQueue, ifdef, ifelse, hS.1, hS.2, until_exit, Call.isExit]
    · rw [List.all_append, List.all_append, hearly, hLq.2]
      simp [Call.isEarly, Call.isExit, Call.isTimerCall, Call.isTaskCreate]

theorem mem_body_of_mem_until_exit (l : List Call) (c : Call) (h : c ∈ until_exit l) :
    c ∈ l := by
  induction l with
  | nil => simp [until_exit] at h
  | cons x xs ih =>
    unfold until_exit at h
    split at h
    · simp only [List.mem_singleton] at h
      simp [h]
    · rcases List.mem_cons.mp h with h | h
      · simp [h]
      · exact List.mem_cons_of_mem _ (ih h)

/-- Every task that the body of `setup()` creates, with its parameters. -/
theorem task_in_body (b : BuildFlags) (cfg : configData_t) (env : Env)
    (fn : TaskFn) (name : String) (stack prio core : Nat)
    (h : Call.xTaskCreatePinnedToCore fn name stack prio core ∈ setup_body b cfg env) :
    (fn = .lorawan_loop ∧ name = "loraloop" ∧ stack = 3048 ∧ prio = 2 ∧ core = 1) ∨
    (fn = .gps_loop ∧ name = "gpsloop" ∧ stack = 1024 ∧ prio = 2 ∧ core = 0) ∨
    (fn = .switchWifiChannel ∧ name = "wifiloop" ∧ stack = 2048 ∧ prio = 4 ∧ core = 0) ∨
    (fn = .stateMachine ∧ name = "stateloop" ∧ stack = 2048 ∧ prio = 1 ∧ core = 1) := by
  simp only [setup_body, setup_logging, setup_peripherals, setup_LoraSendQueue,
    setup_SPISendQueue, setup_banner, setup_display, setup_timers, setup_features,
    setup_lora, setup_gps, setup_ble, setup_wifi, List.mem_append, mem_ifdef_iff,
    mem_ifelse_iff, List.mem_cons, List.mem_singleton, List.not_mem_nil] at h
  simp at h
  tauto

/-- A run that creates a task has created both queues. -/
theorem queues_created_of_task (b : BuildFlags) (cfg : configData_t) (env : Env)
    (h : ∃ c ∈ setup b cfg env, c.isTaskCreate = true) : queues_created b env = true := by
  by_contra hq
  obtain ⟨pre, q, msg, hrun, hpre⟩ := setup_of_queue_failure b cfg env (by simpa using hq)
  obtain ⟨c, hc, ht⟩ := h
  rw [hrun] at hc
  rcases List.mem_append.mp hc with hc | hc
  · have := List.all_eq_true.mp hpre c hc
    simp [Call.isEarly, ht] at this
  · simp at hc
    rcases hc with rfl | rfl | rfl <;> simp [Call.isTaskCreate] at ht

/-- C1: when the creation of the LoRa send queue or of the SPI send queue
returns the null handle, `setup()` ends right there with `exit(0)`: the run
ends with the failed `xQueueCreate`, the error message and `exit`, and it
contains no hardware timer call and no task creation. -/
theorem C1_queue_creation_failure_is_fatal (b : BuildFlags) (cfg : configData_t)
    (env : Env)
    (h : (b.HAS_LORA = true ∧ env.LoraSendQueue = 0) ∨
         (b.HAS_SPI = true ∧ env.SPISendQueue = 0)) :
    (∃ pre q msg, setup b cfg env =
        pre ++ [Call.xQueueCreate q b.SEND_QUEUE_SIZE, Call.ESP_LOGE msg, Call.exit 0]) ∧
    (∀ c ∈ setup b cfg env, c.isTimerCall = false ∧ c.isTaskCreate = false) ∧
    (∀ fn name stack prio core,
      Call.xTaskCreatePinnedToCore fn name stack prio core ∉ setup b cfg env) := by
  have hq : queues_created b env = false := by
    rcases h with ⟨h1, h2⟩ | ⟨h1, h2⟩ <;> simp [queues_created, h1, h2]
  obtain ⟨pre, q, msg, hrun, hpre⟩ := setup_of_queue_failure b cfg env hq
  have hall : ∀ c ∈ setup b cfg env, c.isTimerCall = false ∧ c.isTaskCreate = false := by
    intro c hc
    rw [hrun] at hc
    rcases List.mem_append.mp hc with hc | hc
    · have := List.all_eq_true.mp hpre c hc
      simp only [Call.isEarly, Bool.and_eq_true, Bool.not_eq_true'] at this
      exact ⟨this.1.2, this.2⟩
    · simp at hc
      rcases hc with rfl | rfl | rfl <;> simp [Call.isTimerCall, Call.isTaskCreate]
  refine ⟨⟨pre, q, msg, hrun⟩, hall, ?_⟩
  intro fn name stack prio core hmem
  have := (hall _ hmem).2
  simp [Call.isTaskCreate] at this

/-- C1 at a build with every feature, when the SPI queue cannot be created. -/
theorem C1_queue_creation_failure_is_fatal_witness :
    ((fullBuild.HAS_LORA = true ∧ noSpiQueueEnv.LoraSendQueue = 0) ∨
       (fullBuild.HAS_SPI = true ∧ noSpiQueueEnv.SPISendQueue = 0)) ∧
    ((∃ pre q msg, setup fullBuild sampleCfg noSpiQueueEnv =
        pre ++ [Call.xQueueCreate q fullBuild.SEND_QUEUE_SIZE, Call.ESP_LOGE msg,
          Call.exit 0]) ∧
    (∀ c ∈ setup fullBuild sampleCfg noSpiQueueEnv,
      c.isTimerCall = false ∧ c.isTaskCreate = false) ∧
    (∀ fn name stack prio core,
      Call.xTaskCreatePinnedToCore fn name stack prio core ∉
        setup fullBuild sampleCfg noSpiQueueEnv)) :=
  ⟨by decide, C1_queue_creation_failure_is_fatal fullBuild sampleCfg noSpiQueueEnv
    (by decide)⟩

/-- The statements of `setup()` that come before `wifi_sniffer_init()`. -/
theorem body_split (b : BuildFlags) (cfg : configData_t) (env : Env) :
    ∃ pre, setup_body b cfg env =
        pre ++ [Call.wifi_sniffer_init, Call.get_salt,
          Call.xTaskCreatePinnedToCore .switchWifiChannel "wifiloop" 2048 4 0,
          Call.ESP_LOGI "Starting Statemachine...",
          Call.xTaskCreatePinnedToCore .stateMachine "stateloop" 2048 1 1] ∧
      Call.wifi_sniffer_init ∉ pre ∧ Call.get_salt ∉ pre ∧
      (∀ name stack prio core,
        Call.xTaskCreatePinnedToCore .switchWifiChannel name stack prio core ∉ pre) ∧
      (∀ name stack prio core,
        Call.xTaskCreatePinnedToCore .stateMachine name stack prio core ∉ pre) := by
  refine ⟨setup_logging b ++ setup_peripherals b cfg ++
    setup_LoraSendQueue b env ++ setup_SPISendQueue b env ++
    setup_banner b ++ setup_display b cfg ++ setup_timers b cfg ++
    setup_features b ++ setup_lora b ++ setup_gps b ++ setup_ble b cfg ++
    [Call.ESP_LOGI "Starting Wifi..."], ?_, ?_, ?_, ?_, ?_⟩
  · simp [setup_body, setup_wifi]
  all_goals
    simp [setup_logging, setup_peripherals, setup_LoraSendQueue,
      setup_SPISendQueue, setup_banner, setup_display, setup_timers, setup_features,
      setup_lora, setup_gps, setup_ble, mem_ifdef_iff, mem_ifelse_iff]

/-- C8: `setup()` creates the task `wifiloop` with priority 4 on core 0 and
the state machine task with priority 1 on core 1, in every run that is not
ended by `exit`; no run creates either task with other parameters; the rows
of the header table for `wifiloop` and `statemachine` give the same core and
priority; so the rotation task has the strictly greater priority. -/
theorem C8_rotation_task_above_dispatcher (b : BuildFlags) (cfg : configData_t)
    (env : Env) (h : queues_created b env = true) :
    Call.xTaskCreatePinnedToCore .switchWifiChannel "wifiloop" 2048 4 0 ∈ setup b cfg env ∧
    Call.xTaskCreatePinnedToCore .stateMachine "stateloop" 2048 1 1 ∈ setup b cfg env ∧
    (∀ name stack prio core,
      Call.xTaskCreatePinnedToCore .switchWifiChannel name stack prio core ∈ setup b cfg env →
        name = "wifiloop" ∧ prio = 4 ∧ core = 0) ∧
    (∀ name stack prio core,
      Call.xTaskCreatePinnedToCore .stateMachine name stack prio core ∈ setup b cfg env →
        name = "stateloop" ∧ prio = 1 ∧ core = 1) ∧
    headerRows "wifiloop" = [{ task := "wifiloop", core := 0, prio := 4 }] ∧
    headerRows "statemachine" = [{ task := "statemachine", core := 1, prio := 1 }] ∧
    (∀ n₁ s₁ p₁ c₁ n₂ s₂ p₂ c₂,
      Call.xTaskCreatePinnedToCore .switchWifiChannel n₁ s₁ p₁ c₁ ∈ setup b cfg env →
      Call.xTaskCreatePinnedToCore .stateMachine n₂ s₂ p₂ c₂ ∈ setup b cfg env →
        p₂ < p₁) := by
  have hrun := setup_of_queues_created b cfg env h
  have hw : ∀ name stack prio core,
      Call.xTaskCreatePinnedToCore .switchWifiChannel name stack prio core ∈ setup b cfg env →
        name = "wifiloop" ∧ prio = 4 ∧ core = 0 := by
    intro name stack prio core hm
    rw [hrun] at hm
    have := task_in_body b cfg env _ _ _ _ _ hm
    simp at this
    exact ⟨this.1, this.2.2⟩
  have hs : ∀ name stack prio core,
      Call.xTaskCreatePinnedToCore .stateMachine name stack prio core ∈ setup b cfg env →
        name = "stateloop" ∧ prio = 1 ∧ core = 1 := by
    intro name stack prio core hm
    rw [hrun] at hm
    have := task_in_body b cfg env _ _ _ _ _ hm
    simp at this
    exact ⟨this.1, this.2.2⟩
  obtain ⟨pre, hbody, -⟩ := body_split b cfg env
  refine ⟨?_, ?_, hw, hs, by decide, by decide, ?_⟩
  · rw [hrun, hbody]; simp
  · rw [hrun, hbody]; simp
  · intro n₁ s₁ p₁ c₁ n₂ s₂ p₂ c₂ h1 h2
    have a := (hw _ _ _ _ h1).2.1
    have c := (hs _ _ _ _ h2).2.1
    omega

/-- C8 at a build with every feature and both queues created. -/
theorem C8_rotation_task_above_dispatcher_witness :
    queues_created fullBuild goodEnv = true ∧
    Call.xTaskCreatePinnedToCore .switchWifiChannel "wifiloop" 2048 4 0 ∈
      setup fullBuild sampleCfg goodEnv ∧
    Call.xTaskCreatePinnedToCore .stateMachine "stateloop" 2048 1 1 ∈
      setup fullBuild sampleCfg goodEnv :=
  have h := C8_rotation_task_above_dispatcher fullBuild sampleCfg goodEnv (by decide)
  ⟨by decide, h.1, h.2.1⟩

/-- C9: in every run of `setup()` that reaches a task creation, `get_salt()`
is called exactly once, directly after `wifi_sniffer_init()` and before the
tasks `wifiloop` and `stateloop` are created: the run ends with these calls in
this order, and none of them occurs earlier in the run. -/
theorem C9_salt_after_wifi_before_tasks (b : BuildFlags) (cfg : configData_t)
    (env : Env) (h : ∃ c ∈ setup b cfg env, c.isTaskCreate = true) :
    (setup b cfg env).count Call.get_salt = 1 ∧
    ∃ pre, setup b cfg env =
        pre ++ [Call.wifi_sniffer_init, Call.get_salt,
          Call.xTaskCreatePinnedToCore .switchWifiChannel "wifiloop" 2048 4 0,
          Call.ESP_LOGI "Starting Statemachine...",
          Call.xTaskCreatePinnedToCore .stateMachine "stateloop" 2048 1 1] ∧
      Call.wifi_sniffer_init ∉ pre ∧ Call.get_salt ∉ pre ∧
      (∀ name stack prio core,
        Call.xTaskCreatePinnedToCore .switchWifiChannel name stack prio core ∉ pre) ∧
      (∀ name stack prio core,
        Call.xTaskCreatePinnedToCore .stateMachine name stack prio core ∉ pre) := by
  have hq := queues_created_of_task b cfg env h
  have hrun := setup_of_queues_created b cfg env hq
  obtain ⟨pre, hbody, h1, h2, h3, h4⟩ := body_split b cfg env
  refine ⟨?_, pre, by rw [hrun, hbody], h1, h2, h3, h4⟩
  rw [hrun, hbody, List.count_append, List.count_eq_zero_of_not_mem h2]
  decide

/-- C9 at a build with every feature and both queues created. -/
theorem C9_salt_after_wifi_before_tasks_witness :
    (∃ c ∈ setup fullBuild sampleCfg goodEnv, c.isTaskCreate = true) ∧
    (setup fullBuild sampleCfg goodEnv).count Call.get_salt = 1 :=
  have hyp : ∃ c ∈ setup fullBuild sampleCfg goodEnv, c.isTaskCreate = true :=
    ⟨Call.xTaskCreatePinnedToCore .stateMachine "stateloop" 2048 1 1, by decide, rfl⟩
  ⟨hyp, (C9_salt_after_wifi_before_tasks fullBuild sampleCfg goodEnv hyp).1⟩

/-! ## Alarm values -/

theorem wrap_int32_of_range (x : Int) (h1 : -2147483648 ≤ x) (h2 : x < 2147483648) :
    wrap_int32 x = x := by
  unfold wrap_int32
  rw [Int.emod_eq_of_lt (by omega) (by omega)]
  omega

theorem to_uint64_natCast (n : Nat) (h : n < 18446744073709551616) :
    to_uint64 (n : Int) = n := by
  unfold to_uint64
  rw [Int.emod_eq_of_lt (by omega) (by omega)]
  simp

/-- A converted value fits the `uint64_t` parameter. -/
theorem to_uint64_lt (x : Int) : to_uint64 x < 18446744073709551616 := by
  unfold to_uint64
  have h1 : 0 ≤ x % 18446744073709551616 := Int.emod_nonneg _ (by decide)
  have h2 : x % 18446744073709551616 < 18446744073709551616 :=
    Int.emod_lt_of_pos _ (by decide)
  omega

theorem sendCycle_alarm_eq (cfg : configData_t) (hs : cfg.sendcycle < 256) :
    sendCycle_alarm cfg = cfg.sendcycle * 2 * 10000 := by
  unfold sendCycle_alarm
  rw [wrap_int32_of_range ((cfg.sendcycle : Int) * 2) (by omega) (by omega),
    wrap_int32_of_range _ (by omega) (by omega)]
  exact_mod_cast to_uint64_natCast (cfg.sendcycle * 2 * 10000) (by omega)

theorem channelSwitch_alarm_eq (cfg : configData_t) (hw : cfg.wifichancycle < 256) :
    channelSwitch_alarm cfg = cfg.wifichancycle * 1000 := by
  unfold channelSwitch_alarm
  rw [wrap_int32_of_range _ (by omega) (by omega)]
  exact_mod_cast to_uint64_natCast (cfg.wifichancycle * 1000) (by omega)

theorem homeCycle_alarm_eq (b : BuildFlags) (h : b.HOMECYCLE * 10000 < 2147483648) :
    homeCycle_alarm b = b.HOMECYCLE * 10000 := by
  unfold homeCycle_alarm
  rw [wrap_int32_of_range _ (by omega) (by omega)]
  exact_mod_cast to_uint64_natCast (b.HOMECYCLE * 10000) (by omega)

theorem displaytimer_alarm_eq (b : BuildFlags) (h : b.DISPLAYREFRESH_MS * 1000 < 2147483648) :
    displaytimer_alarm b = b.DISPLAYREFRESH_MS * 1000 := by
  unfold displaytimer_alarm
  rw [wrap_int32_of_range _ (by omega) (by omega)]
  exact_mod_cast to_uint64_natCast (b.DISPLAYREFRESH_MS * 1000) (by omega)

/-- Every alarm value that the body of `setup()` programs. -/
theorem alarm_in_body (b : BuildFlags) (cfg : configData_t) (env : Env)
    (t : hw_timer) (v : Nat) (r : Bool)
    (h : Call.timerAlarmWrite t v r ∈ setup_body b cfg env) :
    (t = .displaytimer ∧ v = displaytimer_alarm b) ∨
    (t = .sendCycle ∧ v = sendCycle_alarm cfg) ∨
    (t = .homeCycle ∧ v = homeCycle_alarm b) ∨
    (t = .channelSwitch ∧ v = channelSwitch_alarm cfg) := by
  simp only [setup_body, setup_logging, setup_peripherals, setup_LoraSendQueue,
    setup_SPISendQueue, setup_banner, setup_display, setup_timers, setup_features,
    setup_lora, setup_gps, setup_ble, setup_wifi, List.mem_append, mem_ifdef_iff,
    mem_ifelse_iff, List.mem_cons, List.mem_singleton, List.not_mem_nil] at h
  simp at h
  rcases h with ⟨-, h1, h2, -⟩ | ⟨h1, h2, -⟩ | ⟨h1, h2, -⟩ | ⟨h1, h2, -⟩ <;> simp [h1, h2]

/-- The timers that every completed run of `setup()` programs. -/
theorem timers_in_run (b : BuildFlags) (cfg : configData_t) (env : Env)
    (h : queues_created b env = true) :
    Call.timerBegin .sendCycle 2 8000 true ∈ setup b cfg env ∧
    Call.timerAlarmWrite .sendCycle (sendCycle_alarm cfg) true ∈ setup b cfg env ∧
    Call.timerBegin .homeCycle 3 8000 true ∈ setup b cfg env ∧
    Call.timerAlarmWrite .homeCycle (homeCycle_alarm b) true ∈ setup b cfg env ∧
    Call.timerBegin .channelSwitch 1 800 true ∈ setup b cfg env ∧
    Call.timerAlarmWrite .channelSwitch (channelSwitch_alarm cfg) true ∈ setup b cfg env := by
  rw [setup_of_queues_created b cfg env h]
  simp [setup_body, setup_timers]

/-- C10: for 8 bit values of `cfg.sendcycle` and `cfg.wifichancycle` the
expressions `cfg.sendcycle * 2 * 10000` and `cfg.wifichancycle * 1000`
evaluate in 32 bit signed arithmetic without wrap-around, to at most 5100000
and 255000; with the prescalers 8000 and 800 that `setup()` programs on the
80 MHz base clock the periods are exactly `2 * cfg.sendcycle` seconds and
`10 * cfg.wifichancycle` milliseconds. -/
theorem C10_alarm_expressions_exact (b : BuildFlags) (cfg : configData_t) (env : Env)
    (hq : queues_created b env = true)
    (hs : cfg.sendcycle < 256) (hw : cfg.wifichancycle < 256) :
    wrap_int32 (wrap_int32 ((cfg.sendcycle : Int) * 2) * 10000) =
      (cfg.sendcycle : Int) * 2 * 10000 ∧
    wrap_int32 ((cfg.wifichancycle : Int) * 1000) = (cfg.wifichancycle : Int) * 1000 ∧
    sendCycle_alarm cfg = cfg.sendcycle * 2 * 10000 ∧
    sendCycle_alarm cfg ≤ 5100000 ∧
    channelSwitch_alarm cfg = cfg.wifichancycle * 1000 ∧
    channelSwitch_alarm cfg ≤ 255000 ∧
    Call.timerBegin .sendCycle 2 8000 true ∈ setup b cfg env ∧
    Call.timerAlarmWrite .sendCycle (sendCycle_alarm cfg) true ∈ setup b cfg env ∧
    Call.timerBegin .channelSwitch 1 800 true ∈ setup b cfg env ∧
    Call.timerAlarmWrite .channelSwitch (channelSwitch_alarm cfg) true ∈ setup b cfg env ∧
    period_cycles 8000 (sendCycle_alarm cfg) = (2 * cfg.sendcycle) * TIMER_BASE_CLK ∧
    period_cycles 800 (channelSwitch_alarm cfg) * 1000 =
      (10 * cfg.wifichancycle) * TIMER_BASE_CLK := by
  have e1 := sendCycle_alarm_eq cfg hs
  have e2 := channelSwitch_alarm_eq cfg hw
  have ht := timers_in_run b cfg env hq
  refine ⟨?_, ?_, e1, ?_, e2, ?_, ht.1, ht.2.1, ht.2.2.2.2.1, ht.2.2.2.2.2, ?_, ?_⟩
  · rw [wrap_int32_of_range ((cfg.sendcycle : Int) * 2) (by omega) (by omega),
      wrap_int32_of_range _ (by omega) (by omega)]
  · rw [wrap_int32_of_range _ (by omega) (by omega)]
  · omega
  · omega
  · rw [e1]; unfold period_cycles TIMER_BASE_CLK; omega
  · rw [e2]; unfold period_cycles TIMER_BASE_CLK; omega

/-- C10 at `cfg.sendcycle = 30` and `cfg.wifichancycle = 50`: 60 seconds and
500 milliseconds. -/
theorem C10_alarm_expressions_exact_witness :
    queues_created fullBuild goodEnv = true ∧
    sampleCfg.sendcycle < 256 ∧ sampleCfg.wifichancycle < 256 ∧
    sendCycle_alarm sampleCfg = 30 * 2 * 10000 ∧
    period_cycles 8000 (sendCycle_alarm sampleCfg) = (2 * 30) * TIMER_BASE_CLK ∧
    period_cycles 800 (channelSwitch_alarm sampleCfg) * 1000 = (10 * 50) * TIMER_BASE_CLK :=
  have h := C10_alarm_expressions_exact fullBuild sampleCfg goodEnv (by decide)
    (by decide) (by decide)
  ⟨by decide, by decide, by decide, h.2.2.1, h.2.2.2.2.2.2.2.2.2.2.1,
    h.2.2.2.2.2.2.2.2.2.2.2⟩

/-- C7 fails at `cfg.sendcycle = 0`: the completed run of `setup()` programs
the send cycle timer with the alarm value 0, which is not greater than
zero. -/
theorem C7_counterexample :
    queues_created fullBuild goodEnv = true ∧
    zeroCycleCfg.sendcycle < 256 ∧
    Call.timerAlarmWrite .sendCycle 0 true ∈ setup fullBuild zeroCycleCfg goodEnv ∧
    ¬ (0 < sendCycle_alarm zeroCycleCfg) := by
  refine ⟨by decide, by decide, ?_, by decide⟩
  have h := (timers_in_run fullBuild zeroCycleCfg goodEnv (by decide)).2.1
  have e : sendCycle_alarm zeroCycleCfg = 0 := by decide
  rwa [e] at h

/-- C7 as amended: for 8 bit values of `cfg.sendcycle` and
`cfg.wifichancycle`, every alarm value that `setup()` programs is the display
constant, `cfg.sendcycle * 2 * 10000`, the housekeeping constant or
`cfg.wifichancycle * 1000`, and is below 2^64; the two configured values are
at most 5100000 and 255000, and each is greater than zero exactly when its
configuration value is not zero; the housekeeping and display constants are
below 2^64, and whenever `HOMECYCLE * 10000`, respectively
`DISPLAYREFRESH_MS * 1000`, is below 2^31 the constant is that product and is
greater than zero exactly when the macro is not zero. -/
theorem C7_alarm_values_bounded (b : BuildFlags) (cfg : configData_t) (env : Env)
    (hs : cfg.sendcycle < 256) (hw : cfg.wifichancycle < 256) :
    (∀ t v r, Call.timerAlarmWrite t v r ∈ setup b cfg env →
      (t = .displaytimer ∧ v = displaytimer_alarm b) ∨
      (t = .sendCycle ∧ v = cfg.sendcycle * 2 * 10000) ∨
      (t = .homeCycle ∧ v = homeCycle_alarm b) ∨
      (t = .channelSwitch ∧ v = cfg.wifichancycle * 1000)) ∧
    (∀ t v r, Call.timerAlarmWrite t v r ∈ setup b cfg env →
      v < 18446744073709551616) ∧
    sendCycle_alarm cfg ≤ 5100000 ∧
    channelSwitch_alarm cfg ≤ 255000 ∧
    (0 < sendCycle_alarm cfg ↔ 0 < cfg.sendcycle) ∧
    (0 < channelSwitch_alarm cfg ↔ 0 < cfg.wifichancycle) ∧
    homeCycle_alarm b < 18446744073709551616 ∧
    displaytimer_alarm b < 18446744073709551616 ∧
    (b.HOMECYCLE * 10000 < 2147483648 →
      homeCycle_alarm b = b.HOMECYCLE * 10000 ∧
      (0 < homeCycle_alarm b ↔ 0 < b.HOMECYCLE)) ∧
    (b.DISPLAYREFRESH_MS * 1000 < 2147483648 →
      displaytimer_alarm b = b.DISPLAYREFRESH_MS * 1000 ∧
      (0 < displaytimer_alarm b ↔ 0 < b.DISPLAYREFRESH_MS)) := by
  have e1 := sendCycle_alarm_eq cfg hs
  have e2 := channelSwitch_alarm_eq cfg hw
  have b3 : homeCycle_alarm b < 18446744073709551616 := to_uint64_lt _
  have b4 : displaytimer_alarm b < 18446744073709551616 := to_uint64_lt _
  have key : ∀ t v r, Call.timerAlarmWrite t v r ∈ setup b cfg env →
      (t = .displaytimer ∧ v = displaytimer_alarm b) ∨
      (t = .sendCycle ∧ v = cfg.sendcycle * 2 * 10000) ∨
      (t = .homeCycle ∧ v = homeCycle_alarm b) ∨
      (t = .channelSwitch ∧ v = cfg.wifichancycle * 1000) := by
    intro t v r hm
    have := alarm_in_body b cfg env t v r (mem_body_of_mem_until_exit _ _ hm)
    rw [e1, e2] at this
    exact this
  refine ⟨key, ?_, by omega, by omega, by omega, by omega, b3, b4, ?_, ?_⟩
  · intro t v r hm
    rcases key t v r hm with ⟨-, hv⟩ | ⟨-, hv⟩ | ⟨-, hv⟩ | ⟨-, hv⟩
    · rw [hv]; exact b4
    · rw [hv]; omega
    · rw [hv]; exact b3
    · rw [hv]; omega
  · intro hh
    have e3 := homeCycle_alarm_eq b hh
    exact ⟨e3, by omega⟩
  · intro hd
    have e4 := displaytimer_alarm_eq b hd
    exact ⟨e4, by omega⟩

/-- C7 as amended, at the sample configuration and the build with every
feature: the send cycle alarm is 600000 and the housekeeping alarm 300000. -/
theorem C7_alarm_values_bounded_witness :
    sampleCfg.sendcycle < 256 ∧ sampleCfg.wifichancycle < 256 ∧
    sendCycle_alarm sampleCfg ≤ 5100000 ∧
    (0 < sendCycle_alarm sampleCfg ↔ 0 < sampleCfg.sendcycle) ∧
    homeCycle_alarm fullBuild = fullBuild.HOMECYCLE * 10000 ∧
    (0 < homeCycle_alarm fullBuild ↔ 0 < fullBuild.HOMECYCLE) :=
  have h := C7_alarm_values_bounded fullBuild sampleCfg goodEnv (by decide) (by decide)
  have hh := h.2.2.2.2.2.2.2.2.1 (by decide)
  ⟨by decide, by decide, h.2.2.1, h.2.2.2.2.1, hh.1, hh.2⟩

/-! ## Interrupt flags -/

theorem read_store_same (f : IrqFlags) (s : IrqSource) (v : Nat) :
    (f.store s v).read s = v % 256 := by
  cases s <;> rfl

theorem read_store_other (f : IrqFlags) (s t : IrqSource) (v : Nat) (h : s ≠ t) :
    (f.store s v).read t = f.read t := by
  cases s <;> cases t <;> first | rfl | exact absurd rfl h

/-- One handler invocation changes the flag of its own source only, and only
when the debounce does not ignore it. -/
theorem read_fire (f : IrqFlags) (s : IrqSource) (e : Firing) :
    (irq_fire f e).read s =
      if (e.source == s && !e.ignored) = true then (f.read s + 1) % 256 else f.read s := by
  unfold irq_fire
  by_cases hi : e.ignored = true
  · simp [hi]
  · simp only [hi, Bool.false_eq_true, if_false, Bool.not_false, Bool.and_true, beq_iff_eq]
    split
    · next h => subst h; exact read_store_same _ _ _
    · next h => exact read_store_other _ _ _ _ h

/-- The value of a flag after a sequence of handler invocations: an 8 bit
count of the recorded ones. -/
theorem read_fire_all (fired : List Firing) (f : IrqFlags) (s : IrqSource)
    (hf : f.read s < 256) :
    (irq_fire_all f fired).read s = (f.read s + recorded s fired) % 256 := by
  induction fired generalizing f with
  | nil =>
    simp only [irq_fire_all, recorded, List.foldl_nil, List.countP_nil, Nat.add_zero]
    exact (Nat.mod_eq_of_lt hf).symm
  | cons e es ih =>
    have hstep : irq_fire_all f (e :: es) = irq_fire_all (irq_fire f e) es := rfl
    have hr := read_fire f s e
    have hrec : recorded s (e :: es) =
        recorded s es + if (e.source == s && !e.ignored) = true then 1 else 0 := by
      unfold recorded
      rw [List.countP_cons]
    rw [hstep, hrec]
    by_cases hc : (e.source == s && !e.ignored) = true
    · rw [if_pos hc] at hr ⊢
      have hlt : (irq_fire f e).read s < 256 := by rw [hr]; omega
      rw [ih _ hlt, hr]
      omega
    · rw [if_neg hc] at hr ⊢
      have hlt : (irq_fire f e).read s < 256 := by rw [hr]; exact hf
      rw [ih _ hlt, hr]
      rfl

/-- After a clear, the flag holds the number of recorded firings modulo 256. -/
theorem read_after_clear (fired : List Firing) (f : IrqFlags) (s : IrqSource) :
    (irq_fire_all (irq_clear f s) fired).read s = recorded s fired % 256 := by
  have hc : (irq_clear f s).read s = 0 := by
    unfold irq_clear; rw [read_store_same]
  rw [read_fire_all fired _ s (by rw [hc]; decide), hc, Nat.zero_add]

/-- The debounce can only lower the count. -/
theorem recorded_le_firings (s : IrqSource) (fired : List Firing) :
    recorded s fired ≤ firings s fired := by
  unfold recorded firings
  induction fired with
  | nil => simp
  | cons e es ih =>
    rw [List.countP_cons, List.countP_cons]
    by_cases h1 : (e.source == s) = true <;> by_cases h2 : e.ignored = true <;>
      simp [h1, h2] <;> omega

/-- Timer firings are never ignored. -/
theorem recorded_eq_firings (s : IrqSource) (fired : List Firing) (hs : s ≠ .Button) :
    recorded s fired = firings s fired := by
  unfold recorded firings
  congr 1
  funext e
  by_cases h1 : e.source = s
  · have : e.ignored = false := by
      unfold Firing.ignored
      have hb : (e.source == IrqSource.Button) = false := by
        rw [h1]; exact beq_false_of_ne hs
      rw [hb]; rfl
    simp [h1, this]
  · simp [h1]

/-- C5 fails at 256 firings: after a clear and 256 firings of the send cycle
handler the dispatcher reads 0, which is less than 256. -/
theorem C5_counterexample :
    (irq_fire_all (irq_clear IrqFlags.boot .SendCycleTimer)
      (List.replicate 256 { source := .SendCycleTimer, in_refractory := false })).read
        .SendCycleTimer = 0 ∧
    ¬ (256 ≤ (irq_fire_all (irq_clear IrqFlags.boot .SendCycleTimer)
      (List.replicate 256 { source := .SendCycleTimer, in_refractory := false })).read
        .SendCycleTimer) := by
  have h := read_after_clear
    (List.replicate 256 { source := IrqSource.SendCycleTimer, in_refractory := false })
    IrqFlags.boot .SendCycleTimer
  have hrec : recorded .SendCycleTimer
      (List.replicate 256 { source := IrqSource.SendCycleTimer, in_refractory := false }) =
        256 := by
    unfold recorded
    rw [List.countP_replicate]
    rfl
  rw [hrec] at h
  rw [h]
  decide

/-- C5 as amended: each flag is an 8 bit counter.  After a clear and any
sequence of handler firings, the value the dispatcher reads from a flag is
the number of recorded firings of its handler modulo 256, whatever the other
handlers did.  For the four timer flags every firing is recorded, so for n
firings up to 255 the value read is n.  For `ButtonPressedIRQ` the presses
within the refractory window are not recorded, so for n presses up to 255 the
value read is the number of presses not ignored, which is at most n. -/
theorem C5_flag_counts_up_to_255 (f : IrqFlags) (s : IrqSource) (fired : List Firing)
    (h : firings s fired ≤ 255) :
    (irq_fire_all (irq_clear f s) fired).read s = recorded s fired ∧
    (irq_fire_all (irq_clear f s) fired).read s ≤ firings s fired ∧
    (s ≠ .Button →
      (irq_fire_all (irq_clear f s) fired).read s = firings s fired ∧
      firings s fired ≤ (irq_fire_all (irq_clear f s) fired).read s) ∧
    (∀ g : IrqFlags, ∀ l : List Firing,
      (irq_fire_all (irq_clear g s) l).read s = recorded s l % 256) := by
  have hle := recorded_le_firings s fired
  have e := read_after_clear fired f s
  rw [Nat.mod_eq_of_lt (by omega)] at e
  refine ⟨e, by omega, fun hs => ?_, fun g l => read_after_clear l g s⟩
  have := recorded_eq_firings s fired hs
  omega

/-- C5 as amended, at two firings of the display timer handler mixed with
three button presses, one of them within the refractory window, and a
housekeeping firing: both flags read 2. -/
theorem C5_flag_counts_up_to_255_witness :
    firings .DisplayTimer sampleFirings ≤ 255 ∧
    firings .DisplayTimer sampleFirings = 2 ∧
    (irq_fire_all (irq_clear IrqFlags.boot .DisplayTimer) sampleFirings).read
      .DisplayTimer = 2 ∧
    firings .Button sampleFirings = 3 ∧
    (irq_fire_all (irq_clear IrqFlags.boot .Button) sampleFirings).read .Button = 2 :=
  ⟨by decide, by decide,
    ((C5_flag_counts_up_to_255 IrqFlags.boot .DisplayTimer sampleFirings
      (by decide)).1).trans (by decide), by decide, by decide⟩

/-! ## Dedup store -/

/-- The set after a sequence of `observe` calls: what it held before together
with the fingerprints of the observed identifiers. -/
theorem macs_observe_all (hash : Nat → Nat → Nat) (obs : List (Category × Nat))
    (s : DedupStore) :
    (observe_all hash s obs).macs =
      s.macs ∪ (obs.map (fun o => fingerprint hash s.salt o.2)).toFinset := by
  induction obs generalizing s with
  | nil => simp [observe_all]
  | cons o os ih =>
    have e : observe_all hash s (o :: os) = observe_all hash (observe hash s o.1 o.2) os := rfl
    rw [e, ih]
    simp only [observe, List.map_cons, List.toFinset_cons]
    ext x
    simp only [Finset.mem_union, Finset.mem_insert, List.mem_toFinset]
    tauto

theorem fingerprint_lt (hash : Nat → Nat → Nat) (salt raw : Nat) :
    fingerprint hash salt raw < 65536 := by
  unfold fingerprint to_uint16
  omega

/-- In an empty window `drain` is the number of distinct fingerprints. -/
theorem drain_eq_fingerprints (hash : Nat → Nat → Nat) (s : DedupStore)
    (obs : List (Category × Nat)) (h : s.macs = ∅) :
    drain (observe_all hash s obs) = distinct_fingerprints hash s.salt obs := by
  unfold drain distinct_fingerprints
  rw [macs_observe_all, h, Finset.empty_union, List.card_toFinset]

/-- The set never holds more than 65536 fingerprints. -/
theorem drain_le_65536 (hash : Nat → Nat → Nat) (s : DedupStore)
    (obs : List (Category × Nat)) (h : s.macs = ∅) :
    drain (observe_all hash s obs) ≤ 65536 := by
  unfold drain
  rw [macs_observe_all, h, Finset.empty_union]
  have hsub : (obs.map (fun o => fingerprint hash s.salt o.2)).toFinset ⊆
      Finset.range 65536 := by
    intro x hx
    simp only [List.mem_toFinset, List.mem_map] at hx
    obtain ⟨o, -, rfl⟩ := hx
    exact Finset.mem_range.mpr (fingerprint_lt _ _ _)
  simpa using Finset.card_le_card hsub

/-- The set never holds more elements than distinct pairs were observed. -/
theorem drain_le_pairs (hash : Nat → Nat → Nat) (s : DedupStore)
    (obs : List (Category × Nat)) (h : s.macs = ∅) :
    drain (observe_all hash s obs) ≤ distinct_pairs obs := by
  unfold drain distinct_pairs
  have e : (obs.map (fun o => fingerprint hash s.salt o.2)).toFinset =
      obs.toFinset.image (fun o => fingerprint hash s.salt o.2) := by
    ext x; simp
  rw [macs_observe_all, h, Finset.empty_union, ← List.card_toFinset, e]
  exact Finset.card_image_le

/-- When no two distinct observed pairs share a fingerprint, the set holds one
element per distinct pair. -/
theorem drain_eq_pairs_of_injective (hash : Nat → Nat → Nat) (s : DedupStore)
    (obs : List (Category × Nat)) (h : s.macs = ∅)
    (hinj : ∀ o₁ ∈ obs, ∀ o₂ ∈ obs,
      fingerprint hash s.salt o₁.2 = fingerprint hash s.salt o₂.2 → o₁ = o₂) :
    drain (observe_all hash s obs) = distinct_pairs obs := by
  unfold drain distinct_pairs
  have e : (obs.map (fun o => fingerprint hash s.salt o.2)).toFinset =
      obs.toFinset.image (fun o => fingerprint hash s.salt o.2) := by
    ext x; simp
  rw [macs_observe_all, h, Finset.empty_union, ← List.card_toFinset, e]
  apply Finset.card_image_of_injOn
  intro a ha b hb hab
  exact hinj a (by simpa using ha) b (by simpa using hb) hab

/-- C2 fails for every fingerprint function: no hash makes the cardinality of
`macs` equal to the number of distinct pairs on all inputs, since 65537
distinct WiFi identifiers leave at most 65536 fingerprints. -/
theorem C2_counterexample :
    ¬ ∃ hash : Nat → Nat → Nat, ∀ (salt : Nat) (obs : List (Category × Nat)),
      drain (observe_all hash (DedupStore.boot salt) obs) = distinct_pairs obs := by
  rintro ⟨hash, h⟩
  have h1 := h 0 ((List.range 65537).map (fun n => (Category.wifi, n)))
  have h2 := drain_le_65536 hash (DedupStore.boot 0)
    ((List.range 65537).map (fun n => (Category.wifi, n))) rfl
  have hnd : ((List.range 65537).map (fun n => (Category.wifi, n))).Nodup :=
    (List.nodup_range 65537).map (fun a b hab => by simpa using hab)
  have h3 : distinct_pairs ((List.range 65537).map (fun n => (Category.wifi, n))) = 65537 := by
    unfold distinct_pairs
    rw [List.Nodup.dedup hnd, List.length_map, List.length_range]
  omega

/-- C2 as amended: in a window that starts empty (at boot or after
`reset_window`) the cardinality of `macs` equals the number of distinct 16 bit
fingerprints of the identifiers observed since, however often each is
repeated; it is at most the number of distinct (category, identifier) pairs
and at most 65536. -/
theorem C2_cardinality_counts_fingerprints (hash : Nat → Nat → Nat) (s₀ : DedupStore)
    (salt : Nat) (obs : List (Category × Nat)) :
    drain (observe_all hash (reset_window s₀ salt) obs) =
      distinct_fingerprints hash (to_uint16 salt) obs ∧
    drain (observe_all hash (DedupStore.boot salt) obs) =
      distinct_fingerprints hash (to_uint16 salt) obs ∧
    drain (observe_all hash (reset_window s₀ salt) obs) ≤ distinct_pairs obs ∧
    drain (observe_all hash (reset_window s₀ salt) obs) ≤ 65536 ∧
    drain (observe_all hash (reset_window s₀ salt) (obs ++ obs)) =
      drain (observe_all hash (reset_window s₀ salt) obs) ∧
    ((∀ o₁ ∈ obs, ∀ o₂ ∈ obs,
        fingerprint hash (to_uint16 salt) o₁.2 = fingerprint hash (to_uint16 salt) o₂.2 →
          o₁ = o₂) →
      drain (observe_all hash (reset_window s₀ salt) obs) = distinct_pairs obs) :=
  ⟨drain_eq_fingerprints hash _ obs rfl, drain_eq_fingerprints hash _ obs rfl,
    drain_le_pairs hash _ obs rfl, drain_le_65536 hash _ obs rfl, by
      unfold drain
      rw [macs_observe_all, macs_observe_all]
      simp, fun hinj => drain_eq_pairs_of_injective hash (reset_window s₀ salt) obs rfl hinj⟩

/-- C2 as amended, at three observations of two WiFi identifiers whose
fingerprints differ: the cardinality is 2. -/
theorem C2_cardinality_counts_fingerprints_witness :
    drain (observe_all sampleHash (reset_window (DedupStore.boot 0) 7)
      [(Category.wifi, 1), (Category.wifi, 2), (Category.wifi, 1)]) = 2 :=
  (C2_cardinality_counts_fingerprints sampleHash (DedupStore.boot 0) 7
    [(Category.wifi, 1), (Category.wifi, 2), (Category.wifi, 1)]).1.trans (by decide)

/-- C3: `observe` is idempotent on the set: a second `observe` of the same
identifier under the same salt changes nothing, and any number k + 1 of
`observe` calls with one identifier in an empty window, 50 for instance,
leaves exactly one fingerprint. -/
theorem C3_observe_idempotent (hash : Nat → Nat → Nat) (s : DedupStore)
    (c : Category) (raw salt k : Nat) :
    observe hash (observe hash s c raw) c raw = observe hash s c raw ∧
    (observe hash (observe hash s c raw) c raw).macs.card = (observe hash s c raw).macs.card ∧
    drain (observe_all hash (reset_window s salt) (List.replicate (k + 1) (c, raw))) = 1 ∧
    drain (observe_all hash (DedupStore.boot salt) (List.replicate (k + 1) (c, raw))) = 1 ∧
    drain (observe_all hash (reset_window s salt) (List.replicate 50 (Category.wifi, raw))) = 1 := by
  have idem : observe hash (observe hash s c raw) c raw = observe hash s c raw := by
    simp [observe]
  have one : ∀ (t : DedupStore) (cc : Category) (n : Nat), t.macs = ∅ →
      drain (observe_all hash t (List.replicate (n + 1) (cc, raw))) = 1 := by
    intro t cc n ht
    unfold drain
    rw [macs_observe_all, ht, Finset.empty_union, List.map_replicate,
      List.toFinset_replicate_of_ne_zero (Nat.succ_ne_zero n)]
    rfl
  exact ⟨idem, by rw [idem], one _ c k rfl, one _ c k rfl, one _ Category.wifi 49 rfl⟩

/-! ## Send queues -/

/-- Operations keep the capacity the queue was created with. -/
theorem capacity_run {α : Type} (ops : List (QueueOp α)) (q : SendQueue α) :
    (q.run ops).capacity = q.capacity := by
  induction ops generalizing q with
  | nil => rfl
  | cons op ops ih =>
    cases op with
    | enq e =>
      have e1 : q.run (QueueOp.enq e :: ops) = (try_enqueue q e).2.run ops := rfl
      rw [e1, ih]
      unfold try_enqueue
      split <;> rfl
    | deq =>
      have e1 : q.run (QueueOp.deq :: ops) = (dequeue q).2.run ops := rfl
      rw [e1, ih]
      unfold dequeue
      split <;> rfl

/-- A queue never holds more elements than its capacity. -/
theorem length_run_le {α : Type} (ops : List (QueueOp α)) (q : SendQueue α)
    (h : q.items.length ≤ q.capacity) : (q.run ops).items.length ≤ q.capacity := by
  induction ops generalizing q with
  | nil => exact h
  | cons op ops ih =>
    cases op with
    | enq e =>
      have e1 : q.run (QueueOp.enq e :: ops) = (try_enqueue q e).2.run ops := rfl
      have hc : (try_enqueue q e).2.capacity = q.capacity := by
        unfold try_enqueue; split <;> rfl
      rw [e1, ← hc]
      apply ih
      rw [hc]
      unfold try_enqueue
      split
      · simp only [List.length_append, List.length_singleton]; omega
      · exact h
    | deq =>
      have e1 : q.run (QueueOp.deq :: ops) = (dequeue q).2.run ops := rfl
      have hc : (dequeue q).2.capacity = q.capacity := by
        unfold dequeue; split <;> rfl
      rw [e1, ← hc]
      apply ih
      rw [hc]
      unfold dequeue
      split
      · exact h
      · next x xs hx => rw [hx] at h; simp only [List.length_cons] at h ⊢; omega

/-- C4: on a send queue created with capacity N = `SEND_QUEUE_SIZE` that,
after any sequence of enqueue and dequeue operations, holds N elements,
`try_enqueue` of any element returns `full` and leaves the N elements as they
are, in their order; only the drop counter changes. -/
theorem C4_try_enqueue_on_full_queue {α : Type} (b : BuildFlags)
    (ops : List (QueueOp α)) (e : α)
    (hfull : ((SendQueue.create b.SEND_QUEUE_SIZE : SendQueue α).run ops).items.length =
      b.SEND_QUEUE_SIZE) :
    (try_enqueue ((SendQueue.create b.SEND_QUEUE_SIZE).run ops) e).1 = EnqueueResult.full ∧
    (try_enqueue ((SendQueue.create b.SEND_QUEUE_SIZE).run ops) e).2.items =
      ((SendQueue.create b.SEND_QUEUE_SIZE : SendQueue α).run ops).items ∧
    (try_enqueue ((SendQueue.create b.SEND_QUEUE_SIZE).run ops) e).2.items.length =
      b.SEND_QUEUE_SIZE ∧
    (try_enqueue ((SendQueue.create b.SEND_QUEUE_SIZE).run ops) e).2.capacity =
      b.SEND_QUEUE_SIZE := by
  have hc := capacity_run ops (SendQueue.create b.SEND_QUEUE_SIZE : SendQueue α)
  have hcap : ((SendQueue.create b.SEND_QUEUE_SIZE : SendQueue α).run ops).capacity =
      b.SEND_QUEUE_SIZE := hc
  have hnot : ¬ ((SendQueue.create b.SEND_QUEUE_SIZE : SendQueue α).run ops).items.length <
      ((SendQueue.create b.SEND_QUEUE_SIZE : SendQueue α).run ops).capacity := by
    rw [hcap, hfull]; exact Nat.lt_irrefl _
  unfold try_enqueue
  rw [if_neg hnot]
  exact ⟨rfl, rfl, hfull, hcap⟩

/-- C4 at capacity 4: after four payloads a fifth is refused and the four
stay in order. -/
theorem C4_try_enqueue_on_full_queue_witness :
    ((SendQueue.create smallQueueBuild.SEND_QUEUE_SIZE : SendQueue Nat).run
      [.enq 10, .enq 20, .enq 30, .enq 40]).items.length = smallQueueBuild.SEND_QUEUE_SIZE ∧
    (try_enqueue ((SendQueue.create smallQueueBuild.SEND_QUEUE_SIZE).run
      [.enq 10, .enq 20, .enq 30, .enq 40]) 50).1 = EnqueueResult.full ∧
    (try_enqueue ((SendQueue.create smallQueueBuild.SEND_QUEUE_SIZE).run
      [.enq 10, .enq 20, .enq 30, .enq 40]) 50).2.items = [10, 20, 30, 40] :=
  have h := C4_try_enqueue_on_full_queue smallQueueBuild
    [QueueOp.enq 10, .enq 20, .enq 30, .enq 40] 50 (by decide)
  ⟨by decide, h.1, h.2.1.trans (by decide)⟩

/-! ## Channel rotation -/

/-- C6 fails for a list of 257 channels at index 255: the 8 bit index becomes
0, not 256. -/
theorem C6_counterexample :
    (255 : Nat) < 257 ∧ rotate 257 255 = 0 ∧ (255 + 1) % 257 = 256 ∧
    rotate 257 255 ≠ (255 + 1) % 257 := by
  decide

/-- C6 as amended: for every non-empty channel list of length L up to 256 and
every index i (below L in particular), one rotation signal sets the index to
(i + 1) mod L, an index below L; with the list [1, 6, 11] and index 0, three
signals visit the channels 6, 11, 1 and bring the index back to 0. -/
theorem C6_rotation_advances_by_one (L i : Nat) (hL : 0 < L) (h256 : L ≤ 256) :
    rotate L i = (i + 1) % L ∧ rotate L i < L ∧
    visited [1, 6, 11] 3 0 = [some 6, some 11, some 1] ∧
    rotate_n [1, 6, 11].length 3 0 = 0 := by
  have hlt : (i + 1) % L < L := Nat.mod_lt _ hL
  have e : rotate L i = (i + 1) % L := by
    unfold rotate to_uint8
    exact Nat.mod_eq_of_lt (by omega)
  exact ⟨e, by rw [e]; exact hlt, by decide, by decide⟩

/-- C6 as amended, at the last index of a list of three channels. -/
theorem C6_rotation_advances_by_one_witness :
    (0 : Nat) < 3 ∧ 3 ≤ 256 ∧ rotate 3 2 = (2 + 1) % 3 ∧ rotate 3 2 = 0 :=
  ⟨by decide, by decide,
    (C6_rotation_advances_by_one 3 2 (by decide) (by decide)).1, by decide⟩

end Paxcounter
